import Mathlib

set_option maxRecDepth 10000

/-!
Shallow embedding of the A32 instruction decoder of ARM_decode_table.c
(standalone gdb stub for Raspberry Pi 2B) together with theorems about
its dispatch, multiplexing and category-handler behaviour.

Conventions of the embedding:
- C unsigned int values are Nat, reduced mod 2^32 at every operation
  that can overflow (add32, sub32, mul32, shl32, not32, mask32).
- C int values are Int; every assignment to an int variable wraps the
  value into the signed 32-bit range (wrapS), matching the observed
  two-complement behaviour of the compiled code.
- The global register context rpi2_reg_context is passed explicitly as
  a read-only RegContext value.
- The outcome struct instr_next_addr_t keeps the C field address and
  splits the C flag word into its state part and its UNPREDICTABLE
  overlay bit.
-/

/-- Reduce a value to the unsigned 32-bit range, as C unsigned int arithmetic does. -/
def mask32 (n : Nat) : Nat := n % 4294967296

/-- C unsigned 32-bit addition. -/
def add32 (a b : Nat) : Nat := mask32 (a + b)

/-- C unsigned 32-bit subtraction. -/
def sub32 (a b : Nat) : Nat := mask32 (a + 4294967296 - mask32 b)

/-- C unsigned 32-bit multiplication. -/
def mul32 (a b : Nat) : Nat := mask32 (a * b)

/-- C unsigned 32-bit left shift. -/
def shl32 (a n : Nat) : Nat := mask32 (a <<< n)

/-- C bitwise complement of an unsigned 32-bit value. -/
def not32 (a : Nat) : Nat := 4294967295 ^^^ mask32 a

/-- Reinterpret an unsigned 32-bit value as a signed C int. -/
def toSigned (n : Nat) : Int :=
  if mask32 n < 2147483648 then (mask32 n : Int) else (mask32 n : Int) - 4294967296

/-- Reinterpret a signed value as a C unsigned int (two-complement, mod 2^32). -/
def toWord (i : Int) : Nat := (i % 4294967296).toNat

/-- Wrap an integer into the signed 32-bit range, as assignment to a C int does. -/
def wrapS (i : Int) : Int := toSigned (toWord i)

/-- C truncating (toward zero) signed integer division. -/
def cdiv (a b : Int) : Int :=
  if (a < 0) = (b < 0) then ((a.natAbs / b.natAbs : Nat) : Int)
  else -((a.natAbs / b.natAbs : Nat) : Int)

/-- Arithmetic right shift of a signed value (floor division by a power of two). -/
def ashr (i : Int) (n : Nat) : Int := Int.fdiv i ((2 ^ n : Nat) : Int)

/-- Sign-extend a 16-bit field to an Int, as the C cast (int)(short int) does. -/
def sext16 (n : Nat) : Int :=
  if n % 65536 < 32768 then ((n % 65536 : Nat) : Int) else ((n % 65536 : Nat) : Int) - 65536

/-- Modelled from the spec: bit-field utility from instr_util.h (not under src).
Extracts a single bit of a word, returning 0 or 1. -/
def bit (w i : Nat) : Nat := (w >>> i) % 2

/-- Modelled from the spec: bit-field utility from instr_util.h (not under src).
Extracts the inclusive bit range hi..lo of a word, right-justified. -/
def bitrng (w hi lo : Nat) : Nat := (w >>> lo) % (2 ^ (hi + 1 - lo))

/-- Helper for bits_by_mask: scan the given number of low bit positions. -/
def bits_by_mask_go : Nat → Nat → Nat → Nat
  | 0, _, _ => 0
  | n + 1, w, m =>
    if m % 2 = 1 then (w % 2) ||| ((bits_by_mask_go n (w >>> 1) (m >>> 1)) <<< 1)
    else bits_by_mask_go n (w >>> 1) (m >>> 1)

/-- Modelled from the spec: bit-field utility bits from instr_util.h (not under src).
Gathers the bits of the word selected by the mask, compressed so that the lowest
selected bit becomes bit 0 of the result. The one call site reads the P and U
addressing bits of RFE (mask 0x01800000), with U as the low result bit. -/
def bits_by_mask (w m : Nat) : Nat := bits_by_mask_go 32 w m

/-- Modelled from the spec: sign-extension utility sx32 from instr_util.h (not
under src). Sign-extends the field hi..lo of the word to a signed integer. -/
def sx32 (w hi lo : Nat) : Int :=
  if bit w hi = 1 then ((bitrng w hi lo : Nat) : Int) - ((2 ^ (hi + 1 - lo) : Nat) : Int)
  else ((bitrng w hi lo : Nat) : Int)

/-- C boolean or of two unsigned values, yielding 1 or 0. The source merges
rotate results with the logical operator, so the embedding keeps it. -/
def c_or (a b : Nat) : Nat := if a ≠ 0 ∨ b ≠ 0 then 1 else 0

/-- The state part of the C flag word INSTR_ADDR_ARM / INSTR_ADDR_THUMB /
INSTR_ADDR_UNDEF. Modelled from the spec outcome value (the defining header is
not under src); the UNPREDICTABLE overlay bit of the flag word is kept apart. -/
inductive InstrAddrState where
  | ARM
  | THUMB
  | UNDEFINED
deriving DecidableEq

/-- The outcome value instr_next_addr_t: a 32-bit address plus the flag word,
the latter split into its state part and its UNPREDICTABLE overlay bit. -/
structure instr_next_addr_t where
  address : Nat
  flag : InstrAddrState
  unpred : Bool
deriving DecidableEq

/-- Result builder from the source (ARM_decode_table.c lines 102-109): linear
execution sentinel, address 0xffffffff with the ARM flag. -/
def set_addr_lin : instr_next_addr_t :=
  { address := 0xffffffff, flag := InstrAddrState.ARM, unpred := false }

/-- Modelled from the spec: result builder from instr_util.c (not under src).
Marks the outcome architecturally UNDEFINED; the address is meaningless. -/
def set_undef_addr : instr_next_addr_t :=
  { address := 0, flag := InstrAddrState.UNDEFINED, unpred := false }

/-- Modelled from the spec: result builder from instr_util.c (not under src).
Jump to an A32 address. -/
def set_arm_addr (a : Nat) : instr_next_addr_t :=
  { address := mask32 a, flag := InstrAddrState.ARM, unpred := false }

/-- Modelled from the spec: result builder from instr_util.c (not under src).
Jump to a Thumb address; bit 0 of the address is cleared, as the spec scenario
for a register move to the program counter requires. -/
def set_thumb_addr (a : Nat) : instr_next_addr_t :=
  { address := mask32 a &&& 0xfffffffe, flag := InstrAddrState.THUMB, unpred := false }

/-- Modelled from the spec: result builder from instr_util.c (not under src).
Overlays the UNPREDICTABLE flag, preserving address and state. -/
def set_unpred_addr (r : instr_next_addr_t) : instr_next_addr_t :=
  { r with unpred := true }

/-- Modelled from the spec: the read-only register snapshot rpi2_reg_context
together with the narrow hardware-status providers used by the exception
handler (the storage structure and those providers are not under src).
storage holds the sixteen general registers, with index 15 the program
counter; mem is the synchronous word-read capability of target memory. -/
structure RegContext where
  storage : Nat → Nat
  cpsr : Nat
  spsr : Nat
  secure_state : Bool
  scr : Nat
  hcr : Nat
  elr_hyp : Nat
  mem : Nat → Nat
  mem_byte : Nat → Nat
  coproc_acc : Nat → Bool
  vfp : Nat → Nat

/-- Read one general register of the snapshot as a 32-bit word. -/
def RegContext.reg (c : RegContext) (i : Nat) : Nat := mask32 (c.storage i)

/-- Modelled from the spec: condition evaluation of will_branch from
instr_util.c (not under src). Evaluates the A32 condition field against the
N, Z, C, V flags of the status word; conditions 14 and 15 always pass. -/
def condPassed (cond cpsr : Nat) : Bool :=
  let n := bit cpsr 31
  let z := bit cpsr 30
  let c := bit cpsr 29
  let v := bit cpsr 28
  match cond with
  | 0 => z == 1
  | 1 => z == 0
  | 2 => c == 1
  | 3 => c == 0
  | 4 => n == 1
  | 5 => n == 0
  | 6 => v == 1
  | 7 => v == 0
  | 8 => c == 1 && z == 0
  | 9 => c == 0 || z == 1
  | 10 => n == v
  | 11 => n != v
  | 12 => z == 0 && n == v
  | 13 => z == 1 || n != v
  | _ => true

/-- Modelled from the spec: will_branch from instr_util.c (not under src).
True when the condition-code field of the instruction is satisfied by the
current status word. -/
def will_branch (instr : Nat) (ctx : RegContext) : Bool :=
  condPassed (bitrng instr 31 28) ctx.cpsr

/-- Processor mode constant: user mode. -/
def INSTR_PMODE_USR : Nat := 0x10

/-- Processor mode constant: FIQ mode. -/
def INSTR_PMODE_FIQ : Nat := 0x11

/-- Processor mode constant: monitor mode. -/
def INSTR_PMODE_MON : Nat := 0x16

/-- Processor mode constant: hypervisor mode. -/
def INSTR_PMODE_HYP : Nat := 0x1a

/-- Processor mode constant: system mode. -/
def INSTR_PMODE_SYS : Nat := 0x1f

/-- Modelled from the spec: check_proc_mode from rpi2.c (not under src).
True when the mode field of the status word equals one of the nonzero
arguments. -/
def check_proc_mode (ctx : RegContext) (m1 m2 m3 m4 : Nat) : Bool :=
  let md := bitrng ctx.cpsr 4 0
  (m1 ≠ 0 && md == m1) || (m2 ≠ 0 && md == m2) || (m3 ≠ 0 && md == m3) || (m4 ≠ 0 && md == m4)

/-- Modelled from the spec: security-state provider (not under src). -/
def get_security_state (ctx : RegContext) : Bool := ctx.secure_state

/-- Modelled from the spec: SCR register provider (not under src). -/
def get_SCR (ctx : RegContext) : Nat := ctx.scr

/-- Modelled from the spec: HCR register provider (not under src). -/
def get_HCR (ctx : RegContext) : Nat := ctx.hcr

/-- Modelled from the spec: ELR_hyp provider (not under src). -/
def get_elr_hyp (ctx : RegContext) : Nat := mask32 ctx.elr_hyp

/-- Modelled from the spec: coprocessor access check (not under src). -/
def check_coproc_access (ctx : RegContext) (n : Nat) : Bool := ctx.coproc_acc n

/-- The extra-info discriminator ARM_decode_extra_t. The full enumeration is
generated from a spreadsheet into a header that is not under src; the
embedding lists the values consumed by the handlers embedded here, and the
handlers send every other value to their default branches, as the C switch
statements do. -/
inductive ARM_decode_extra_t where
  | arm_mux_vbic_vmvn
  | arm_mux_wfe_wfi
  | arm_mux_vshrn_q_imm
  | arm_mux_vrshrn_q_imm
  | arm_mux_vshll_i_vmovl
  | arm_mux_vorr_i_vmov_i
  | arm_mux_lsl_i_mov
  | arm_mux_lsl_i_mov_pc
  | arm_mux_ror_i_rrx
  | arm_mux_vmovn_q
  | arm_mux_msr_r_pr
  | arm_mux_mrs_r_pr
  | arm_mux_msr_i_pr_hints
  | arm_mux_vorr_vmov_nm
  | arm_mux_vst_type
  | arm_mux_vld_type
  | arm_cdata_mov_r
  | arm_cdata_lsl_imm
  | arm_ret_mov_pc
  | arm_ret_lsl_imm
  | arm_cdata_rrx_r
  | arm_cdata_ror_imm
  | arm_ret_asr_imm
  | arm_cdata_asr_imm
  | arm_ret_lsr_imm
  | arm_cdata_lsr_imm
  | arm_ret_ror_imm
  | arm_ret_rrx_pc
  | arm_cdata_asr_r
  | arm_cdata_lsl_r
  | arm_cdata_lsr_r
  | arm_cdata_ror_r
  | arm_cdata_cmn_r
  | arm_cdata_cmp_r
  | arm_cdata_teq_r
  | arm_cdata_tst_r
  | arm_cdata_adc_r
  | arm_cdata_add_r
  | arm_cdata_add_r_sp
  | arm_cdata_and_r
  | arm_cdata_bic_r
  | arm_cdata_eor_r
  | arm_cdata_mvn_r
  | arm_cdata_orr_r
  | arm_cdata_rsb_r
  | arm_cdata_rsc_r
  | arm_cdata_sbc_r
  | arm_cdata_sub_r
  | arm_cdata_sub_r_sp
  | arm_ret_adc_r
  | arm_ret_add_r
  | arm_ret_and_r
  | arm_ret_bic_r
  | arm_ret_eor_r
  | arm_ret_mvn_r
  | arm_ret_orr_r
  | arm_ret_rsb_r
  | arm_ret_rsc_r
  | arm_ret_sbc_r
  | arm_ret_sub_r
  | arm_ldst_imm
  | arm_ldst_r
  | arm_div_sdiv
  | arm_div_udiv
  | arm_cmac_mul
  | arm_cmac_mla
  | arm_cmac_mls
  | arm_cmac_smulw
  | arm_cmac_smlaw
  | arm_cmac_smul
  | arm_cmac_smla
  | arm_cmac_smmul
  | arm_cmac_smmla
  | arm_cmac_smmls
  | arm_cmac_smuad
  | arm_cmac_smusd
  | arm_cmac_smlad
  | arm_cmac_smlsd
  | arm_bra_b_lbl
  | arm_bra_bl_lbl
  | arm_bra_blx_lbl
  | arm_bra_bx_r
  | arm_bra_blx_r
  | arm_bra_bxj_r
  | arm_exc_eret
  | arm_exc_bkpt
  | arm_exc_hvc
  | arm_exc_smc
  | arm_exc_svc
  | arm_exc_udf
  | arm_exc_rfe
  | arm_exc_srs
  | arm_vldste_vld1_mult
  | arm_vldste_vld2_mult
  | arm_vldste_vld3_mult
  | arm_vldste_vld4_mult
  | arm_vldste_vst1_mult
  | arm_vldste_vst2_mult
  | arm_vldste_vst3_mult
  | arm_vldste_vst4_mult
  | arm_vldste_vld1_one
  | arm_vldste_vld2_one
  | arm_vldste_vld3_one
  | arm_vldste_vld4_one
  | arm_vldste_vst1_one
  | arm_vldste_vst2_one
  | arm_vldste_vst3_one
  | arm_vldste_vst4_one
  | arm_vldste_vld1_all
  | arm_vldste_vld2_all
  | arm_vldste_vld3_all
  | arm_vldste_vld4_all
deriving DecidableEq

/-- Embedding of arm_core_data_div (ARM_decode_table.c lines 859-939).
Divide instructions: the quotient becomes the candidate address only when the
destination register field Rd (bits 19-16) is the program counter. On the
udiv path the final set_arm_addr uses the local tmp1 as the C does, which on
the zero-divisor path still holds the register number 15; tmp4 accumulates
over both operand checks as in the C. -/
def arm_core_data_div (instr : Nat) (extra : ARM_decode_extra_t) (ctx : RegContext) :
    instr_next_addr_t :=
  let tmp1 := bitrng instr 19 16
  let tmp2 := bitrng instr 11 8
  let tmp3 := bitrng instr 3 0
  if tmp1 = 15 then
    if extra = ARM_decode_extra_t.arm_div_sdiv then
      let stmp2 := let s := toSigned (ctx.reg tmp2); if tmp2 = 15 then wrapS (s + 8) else s
      let stmp3 := let s := toSigned (ctx.reg tmp3); if tmp3 = 15 then wrapS (s + 8) else s
      if stmp2 = 0 then set_arm_addr 0
      else
        let stmp1 :=
          if bit (toWord stmp3) 31 = bit (toWord stmp2) 31 then cdiv stmp3 stmp2
          else ashr (wrapS (cdiv (wrapS (stmp3 * 2)) stmp2 + 1)) 1
        set_arm_addr (toWord stmp1)
    else
      let tmp4a := if tmp2 = 15 then 8 else 0
      let tmp2v := add32 (ctx.reg tmp2) tmp4a
      let tmp4b := if tmp3 = 15 then tmp4a + 8 else tmp4a
      let tmp3v := add32 (ctx.reg tmp3) tmp4b
      let tmp1v := if tmp2v = 0 then tmp1 else tmp3v / tmp2v
      set_arm_addr tmp1v
  else
    let retval := set_addr_lin
    if tmp2 = 15 ∨ tmp3 = 15 then set_unpred_addr retval else retval

/-- Embedding of arm_core_data_mac (ARM_decode_table.c lines 941-1113).
Multiply and multiply-accumulate: only relevant when Rd (bits 19-16) is the
program counter; every PC-destination result carries the UNPREDICTABLE
overlay. The 32-bit products are computed in C int or unsigned int width and
only then widened, as in the source. -/
def arm_core_data_mac (instr : Nat) (extra : ARM_decode_extra_t) (ctx : RegContext) :
    instr_next_addr_t :=
  let tmp3r := bitrng instr 19 16
  if tmp3r = 15 then
    let t1I := bitrng instr 11 8
    let tmp1 := add32 (ctx.reg t1I) (if t1I = 15 then 8 else 0)
    let t2I := bitrng instr 3 0
    let tmp2 := add32 (ctx.reg t2I) (if t2I = 15 then 8 else 0)
    match extra with
    | ARM_decode_extra_t.arm_cmac_mul | ARM_decode_extra_t.arm_cmac_mla
    | ARM_decode_extra_t.arm_cmac_mls =>
      let t3 := mul32 tmp1 tmp2
      let t3 :=
        if extra = ARM_decode_extra_t.arm_cmac_mla then
          add32 t3 (ctx.reg (bitrng instr 15 12))
        else if extra = ARM_decode_extra_t.arm_cmac_mls then
          sub32 (ctx.reg (bitrng instr 15 12)) t3
        else t3
      set_unpred_addr (set_arm_addr t3)
    | ARM_decode_extra_t.arm_cmac_smulw | ARM_decode_extra_t.arm_cmac_smlaw =>
      let stmp1 :=
        if bit instr 6 ≠ 0 then sext16 (bitrng tmp1 31 16) else sext16 (bitrng tmp1 15 0)
      let stmp2 := toSigned tmp2
      let ltmp := wrapS (stmp2 * stmp1)
      let stmp3 := toSigned (toWord (ashr ltmp 16))
      let stmp3 :=
        if extra = ARM_decode_extra_t.arm_cmac_smlaw then
          wrapS (stmp3 + toSigned (ctx.reg (bitrng instr 15 12)))
        else stmp3
      set_unpred_addr (set_arm_addr (toWord stmp3))
    | ARM_decode_extra_t.arm_cmac_smul | ARM_decode_extra_t.arm_cmac_smla =>
      let stmp1 :=
        if bit instr 6 ≠ 0 then sext16 (bitrng tmp1 31 16) else sext16 (bitrng tmp1 15 0)
      let stmp2 :=
        if bit instr 5 ≠ 0 then sext16 (bitrng tmp2 31 16) else sext16 (bitrng tmp2 15 0)
      let stmp3 := wrapS (stmp2 * stmp1)
      let stmp3 :=
        if extra = ARM_decode_extra_t.arm_cmac_smla then
          wrapS (stmp3 + toSigned (ctx.reg (bitrng instr 15 12)))
        else stmp3
      set_unpred_addr (set_arm_addr (toWord stmp3))
    | ARM_decode_extra_t.arm_cmac_smmul | ARM_decode_extra_t.arm_cmac_smmla
    | ARM_decode_extra_t.arm_cmac_smmls =>
      let ltmp := wrapS (toSigned tmp1 * toSigned tmp2)
      let ltmp := if bit instr 5 ≠ 0 then ltmp + 0x80000000 else ltmp
      let stmp3 := toSigned (toWord (ashr ltmp 32))
      let stmp3 :=
        if extra = ARM_decode_extra_t.arm_cmac_smmla then
          wrapS (stmp3 + toSigned (ctx.reg (bitrng instr 15 12)))
        else if extra = ARM_decode_extra_t.arm_cmac_smmls then
          wrapS (toSigned (ctx.reg (bitrng instr 15 12)) - stmp3)
        else stmp3
      set_unpred_addr (set_arm_addr (toWord stmp3))
    | ARM_decode_extra_t.arm_cmac_smuad | ARM_decode_extra_t.arm_cmac_smusd
    | ARM_decode_extra_t.arm_cmac_smlad | ARM_decode_extra_t.arm_cmac_smlsd =>
      let tmp1 :=
        if bit instr 5 ≠ 0 then (bitrng tmp1 31 16) ||| (shl32 (bitrng tmp1 15 0) 16)
        else tmp1
      let stmp3 := wrapS (sext16 (tmp1 &&& 0xffff) * sext16 (tmp2 &&& 0xffff))
      let hi := wrapS (sext16 ((tmp1 >>> 16) &&& 0xffff) * sext16 ((tmp2 >>> 16) &&& 0xffff))
      let stmp3 :=
        if extra = ARM_decode_extra_t.arm_cmac_smuad ∨
            extra = ARM_decode_extra_t.arm_cmac_smlad then wrapS (stmp3 + hi)
        else wrapS (stmp3 - hi)
      let stmp3 :=
        if extra = ARM_decode_extra_t.arm_cmac_smlsd ∨
            extra = ARM_decode_extra_t.arm_cmac_smlad then
          wrapS (stmp3 + toSigned (ctx.reg (bitrng instr 15 12)))
        else stmp3
      set_unpred_addr (set_arm_addr (toWord stmp3))
    | _ => set_undef_addr
  else set_addr_lin

/-- Embedding of arm_core_data_bit (ARM_decode_table.c lines 2253-2446).
Shift, rotate and move forms reached through the multiplexer. The first
switch computes the candidate value tmp3 only when Rd (bits 15-12) is the
program counter; the C leaves tmp3 uninitialised otherwise, modelled here as
zero. The second switch classifies the outcome; its case list covers only
the arm_ret immediate-shift values and the register-shift arm_cdata values,
so every other value, including arm_cdata_mov_r, falls to the default branch
and yields the linear sentinel. On the exception-return path with a normal
mode and a clear SPSR T-bit the C keeps the initial UNDEFINED value because
the set_arm_addr line is commented out in the source. -/
def arm_core_data_bit (instr : Nat) (extra : ARM_decode_extra_t) (ctx : RegContext) :
    instr_next_addr_t :=
  let tmp3 : Nat :=
    if bitrng instr 15 12 = 15 then
      let rI := bitrng instr 3 0
      let tmp1 := let v := ctx.reg rI; if rI = 15 then add32 v 8 else v
      match extra with
      | ARM_decode_extra_t.arm_ret_asr_imm | ARM_decode_extra_t.arm_cdata_asr_imm =>
        let tmp2 := bitrng instr 11 7
        toWord (ashr (toSigned tmp1) tmp2)
      | ARM_decode_extra_t.arm_ret_lsr_imm | ARM_decode_extra_t.arm_cdata_lsr_imm =>
        let tmp2 := bitrng instr 11 7
        tmp1 >>> tmp2
      | ARM_decode_extra_t.arm_ret_lsl_imm | ARM_decode_extra_t.arm_cdata_lsl_imm =>
        let tmp2 := bitrng instr 11 7
        shl32 tmp1 tmp2
      | ARM_decode_extra_t.arm_ret_mov_pc | ARM_decode_extra_t.arm_cdata_mov_r =>
        tmp1
      | ARM_decode_extra_t.arm_ret_ror_imm | ARM_decode_extra_t.arm_cdata_ror_imm =>
        let tmp2 := bitrng instr 11 7
        let tmp4 := shl32 (bitrng tmp1 tmp2 0) (32 - tmp2)
        let t3 := tmp1 >>> tmp2
        let m := shl32 (not32 0) tmp2
        c_or (t3 &&& not32 m) (tmp4 &&& m)
      | ARM_decode_extra_t.arm_ret_rrx_pc | ARM_decode_extra_t.arm_cdata_rrx_r =>
        (tmp1 >>> 1) ||| ((bit ctx.cpsr 29) <<< 31)
      | ARM_decode_extra_t.arm_cdata_asr_r =>
        let rmI := bitrng instr 11 8
        let tmp2 := let v := ctx.reg rmI; if rmI = 15 then add32 v 8 else v
        toWord (ashr (toSigned tmp1) (tmp2 &&& 0x1f))
      | ARM_decode_extra_t.arm_cdata_lsl_r =>
        let rmI := bitrng instr 11 8
        let tmp2 := let v := ctx.reg rmI; if rmI = 15 then add32 v 8 else v
        if tmp2 > 31 then 0 else shl32 tmp1 (tmp2 &&& 0x1f)
      | ARM_decode_extra_t.arm_cdata_lsr_r =>
        let rmI := bitrng instr 11 8
        let tmp2 := let v := ctx.reg rmI; if rmI = 15 then add32 v 8 else v
        if tmp2 > 31 then 0 else tmp1 >>> (tmp2 &&& 0x1f)
      | ARM_decode_extra_t.arm_cdata_ror_r =>
        let rmI := bitrng instr 11 8
        let tmp2 := let v := ctx.reg rmI; if rmI = 15 then add32 v 8 else v
        let tmp2 := tmp2 &&& 0x1f
        if tmp2 = 0 then tmp1
        else
          let tmp4 := shl32 (bitrng tmp1 tmp2 0) (32 - tmp2)
          let t3 := tmp1 >>> tmp2
          let m := shl32 (not32 0) tmp2
          c_or (t3 &&& not32 m) (tmp4 &&& m)
      | _ => 0
    else 0
  match extra with
  | ARM_decode_extra_t.arm_ret_asr_imm | ARM_decode_extra_t.arm_ret_lsr_imm
  | ARM_decode_extra_t.arm_ret_lsl_imm | ARM_decode_extra_t.arm_ret_ror_imm
  | ARM_decode_extra_t.arm_ret_rrx_pc | ARM_decode_extra_t.arm_ret_mov_pc =>
    if bit instr 20 = 0 then
      if tmp3 &&& 1 ≠ 0 then set_thumb_addr tmp3
      else if tmp3 &&& 3 = 0 then set_arm_addr tmp3
      else set_unpred_addr (set_thumb_addr tmp3)
    else
      let md := ctx.cpsr &&& 0x1f
      if md = 0x10 ∨ md = 0x1f then set_unpred_addr (set_arm_addr 0x8)
      else if md = 0x1a then set_undef_addr
      else if bit ctx.spsr 5 ≠ 0 then set_thumb_addr tmp3
      else set_undef_addr
  | ARM_decode_extra_t.arm_cdata_asr_r | ARM_decode_extra_t.arm_cdata_lsl_r
  | ARM_decode_extra_t.arm_cdata_lsr_r | ARM_decode_extra_t.arm_cdata_ror_r =>
    if bitrng instr 15 12 = 15 then
      set_unpred_addr
        (if tmp3 &&& 1 ≠ 0 then set_thumb_addr tmp3
         else if tmp3 &&& 3 = 0 then set_arm_addr tmp3
         else set_thumb_addr tmp3)
    else set_addr_lin
  | _ => set_addr_lin

/-- Embedding of arm_core_data_std_r (ARM_decode_table.c lines 2448-2629).
Register-operand data processing. The compare and test forms are linear; the
others matter only when Rd (bits 15-12) is the program counter. The ROR
branch of the shift switch overwrites tmp1, the first operand, with the bit
mask and merges the rotate halves with the C logical or, and the orr cases
compute a bitwise and of the operands; the embedding reproduces both. -/
def arm_core_data_std_r (instr : Nat) (extra : ARM_decode_extra_t) (ctx : RegContext) :
    instr_next_addr_t :=
  if extra = ARM_decode_extra_t.arm_cdata_cmn_r ∨ extra = ARM_decode_extra_t.arm_cdata_cmp_r ∨
      extra = ARM_decode_extra_t.arm_cdata_teq_r ∨ extra = ARM_decode_extra_t.arm_cdata_tst_r then
    set_addr_lin
  else if bitrng instr 15 12 = 15 then
    let rnI := bitrng instr 19 16
    let tmp1 := let v := ctx.reg rnI; if rnI = 15 then add32 v 8 else v
    let rmI := bitrng instr 3 0
    let tmp2 := let v := ctx.reg rmI; if rmI = 15 then add32 v 8 else v
    let tmp3 := bitrng instr 11 7
    let op2 : Nat × Nat :=
      match bitrng instr 6 5 with
      | 0 => (tmp1, shl32 tmp2 tmp3)
      | 1 => (tmp1, if tmp3 = 0 then 0 else tmp2 >>> tmp3)
      | 2 =>
        let sh := if tmp3 = 0 then 31 else tmp3
        (tmp1, toWord (ashr (toSigned tmp2) sh))
      | 3 =>
        if tmp3 = 0 then (tmp1, (tmp2 >>> 1) ||| ((bit ctx.cpsr 29) <<< 31))
        else
          let tmp4 := shl32 tmp2 (32 - tmp3)
          let t2 := tmp2 >>> tmp3
          let m := shl32 (not32 0) tmp3
          (m, c_or (t2 &&& not32 m) (tmp4 &&& m))
      | _ => (tmp1, tmp2)
    let tmp1 := op2.1
    let tmp2 := op2.2
    let retval :=
      match extra with
      | ARM_decode_extra_t.arm_cdata_adc_r | ARM_decode_extra_t.arm_ret_adc_r =>
        set_arm_addr (add32 (add32 tmp1 tmp2) (bit ctx.cpsr 29))
      | ARM_decode_extra_t.arm_cdata_add_r | ARM_decode_extra_t.arm_cdata_add_r_sp
      | ARM_decode_extra_t.arm_ret_add_r =>
        set_arm_addr (add32 tmp1 tmp2)
      | ARM_decode_extra_t.arm_cdata_and_r | ARM_decode_extra_t.arm_ret_and_r =>
        set_arm_addr (tmp1 &&& tmp2)
      | ARM_decode_extra_t.arm_cdata_bic_r | ARM_decode_extra_t.arm_ret_bic_r =>
        set_arm_addr (tmp1 &&& not32 tmp2)
      | ARM_decode_extra_t.arm_cdata_eor_r | ARM_decode_extra_t.arm_ret_eor_r =>
        set_arm_addr (tmp1 ^^^ tmp2)
      | ARM_decode_extra_t.arm_cdata_mvn_r | ARM_decode_extra_t.arm_ret_mvn_r =>
        set_arm_addr (not32 tmp2)
      | ARM_decode_extra_t.arm_cdata_orr_r | ARM_decode_extra_t.arm_ret_orr_r =>
        set_arm_addr (tmp1 &&& tmp2)
      | ARM_decode_extra_t.arm_cdata_rsb_r | ARM_decode_extra_t.arm_ret_rsb_r =>
        set_arm_addr (sub32 tmp2 tmp1)
      | ARM_decode_extra_t.arm_cdata_rsc_r | ARM_decode_extra_t.arm_ret_rsc_r =>
        set_arm_addr (add32 (add32 (not32 tmp1) tmp2) (bit ctx.cpsr 29))
      | ARM_decode_extra_t.arm_cdata_sbc_r | ARM_decode_extra_t.arm_ret_sbc_r =>
        set_arm_addr (add32 (add32 tmp1 (not32 tmp2)) (bit ctx.cpsr 29))
      | ARM_decode_extra_t.arm_cdata_sub_r | ARM_decode_extra_t.arm_cdata_sub_r_sp
      | ARM_decode_extra_t.arm_ret_sub_r =>
        set_arm_addr (sub32 tmp1 tmp2)
      | _ => set_undef_addr
    match extra with
    | ARM_decode_extra_t.arm_ret_adc_r | ARM_decode_extra_t.arm_ret_add_r
    | ARM_decode_extra_t.arm_ret_and_r | ARM_decode_extra_t.arm_ret_bic_r
    | ARM_decode_extra_t.arm_ret_eor_r | ARM_decode_extra_t.arm_ret_mvn_r
    | ARM_decode_extra_t.arm_ret_orr_r | ARM_decode_extra_t.arm_ret_rsb_r
    | ARM_decode_extra_t.arm_ret_rsc_r | ARM_decode_extra_t.arm_ret_sbc_r
    | ARM_decode_extra_t.arm_ret_sub_r =>
      if bit instr 20 = 0 then
        let t := retval.address
        if t &&& 1 ≠ 0 then set_thumb_addr t
        else if t &&& 3 = 0 then set_arm_addr t
        else set_unpred_addr (set_thumb_addr t)
      else
        let md := ctx.cpsr &&& 0x1f
        if md = 0x10 ∨ md = 0x1f then set_unpred_addr (set_arm_addr 0x8)
        else if md = 0x1a then set_undef_addr
        else if bit ctx.spsr 5 ≠ 0 then set_thumb_addr retval.address
        else retval
    | _ => retval
  else set_addr_lin

/-- Embedding of arm_branch (ARM_decode_table.c lines 687-739). Label
branches add the sign-extended offset to PC plus 8; the register forms BX,
BLX and BXJ take the indexed register value, select Thumb or ARM state from
its low bits, and are flagged UNPREDICTABLE when the index register is the
program counter. When the condition does not hold the result is linear. -/
def arm_branch (instr : Nat) (extra : ARM_decode_extra_t) (ctx : RegContext) :
    instr_next_addr_t :=
  if will_branch instr ctx then
    match extra with
    | ARM_decode_extra_t.arm_bra_b_lbl | ARM_decode_extra_t.arm_bra_bl_lbl =>
      let baddr := wrapS (wrapS (toSigned (ctx.reg 15) + 8) + wrapS (sx32 instr 23 0 * 4))
      set_arm_addr (toWord baddr)
    | ARM_decode_extra_t.arm_bra_blx_lbl =>
      let off := toSigned ((toWord (wrapS (sx32 instr 23 0 * 4))) ||| ((bit instr 24) <<< 1))
      let baddr := wrapS (wrapS (toSigned (ctx.reg 15) + 8) + off)
      set_thumb_addr (toWord baddr)
    | ARM_decode_extra_t.arm_bra_bx_r | ARM_decode_extra_t.arm_bra_blx_r
    | ARM_decode_extra_t.arm_bra_bxj_r =>
      let v := ctx.reg (bitrng instr 3 0)
      let retval :=
        if bit v 0 ≠ 0 then set_thumb_addr (v &&& shl32 (not32 0) 1)
        else if bit v 1 = 0 then set_arm_addr (v &&& shl32 (not32 0) 2)
        else set_unpred_addr set_addr_lin
      if bitrng instr 3 0 = 15 then set_unpred_addr retval else retval
    | _ => set_undef_addr
  else set_addr_lin

/-- Embedding of arm_vfp_ldst_elem (ARM_decode_table.c lines 5146-5386).
Element and structure load/store. The big switch accumulates the UNDEFINED
counter und per sub-type; the block that inspects the base register sits
inside the switch after a break, so only the vld4-all-lanes case reaches it
(its advancement value falls back to zero when the size field is 3, where
the C leaves tmp4 unassigned). Every other case leaves the initial UNDEFINED
result in place. -/
def arm_vfp_ldst_elem (instr : Nat) (extra : ARM_decode_extra_t) (ctx : RegContext) :
    instr_next_addr_t :=
  let tmp1 := bitrng instr 19 16
  let tmp2 := bitrng instr 3 0
  let res : instr_next_addr_t × Nat × Nat :=
    match extra with
    | ARM_decode_extra_t.arm_vldste_vld1_mult | ARM_decode_extra_t.arm_vldste_vst1_mult =>
      let tmp3 := bitrng instr 5 4
      let und :=
        match bitrng instr 11 8 with
        | 6 => if tmp3 &&& 2 ≠ 0 then 1 else 0
        | 7 => if tmp3 &&& 2 ≠ 0 then 1 else 0
        | 10 => if tmp3 = 3 then 1 else 0
        | _ => 0
      (set_undef_addr, und, 0)
    | ARM_decode_extra_t.arm_vldste_vld2_mult | ARM_decode_extra_t.arm_vldste_vst2_mult =>
      let tmp3 := bitrng instr 5 4
      let und0 := if bitrng instr 7 6 = 3 then 1 else 0
      let und :=
        match bitrng instr 11 8 with
        | 8 => if tmp3 = 3 then und0 + 1 else und0
        | 9 => if tmp3 = 3 then und0 + 1 else und0
        | _ => und0
      (set_undef_addr, und, 0)
    | ARM_decode_extra_t.arm_vldste_vld3_mult | ARM_decode_extra_t.arm_vldste_vst3_mult =>
      let und := (if bit instr 5 ≠ 0 then 1 else 0) + (if bitrng instr 7 6 = 3 then 1 else 0)
      (set_undef_addr, und, 0)
    | ARM_decode_extra_t.arm_vldste_vld4_mult | ARM_decode_extra_t.arm_vldste_vst4_mult =>
      (set_undef_addr, (if bitrng instr 7 6 = 3 then 1 else 0), 0)
    | ARM_decode_extra_t.arm_vldste_vld1_one | ARM_decode_extra_t.arm_vldste_vst1_one =>
      let tmp3 := bitrng instr 7 4
      let und :=
        match bitrng instr 11 10 with
        | 0 => if tmp3 &&& 1 ≠ 0 then 1 else 0
        | 1 => if tmp3 &&& 2 ≠ 0 then 1 else 0
        | 2 =>
          (if tmp3 &&& 4 ≠ 0 then 1 else 0) +
            (if tmp3 &&& 3 = 1 ∨ tmp3 &&& 3 = 2 then 1 else 0)
        | _ => 0
      (set_undef_addr, und, 0)
    | ARM_decode_extra_t.arm_vldste_vld2_one | ARM_decode_extra_t.arm_vldste_vst2_one =>
      let tmp3 := bitrng instr 7 4
      let und :=
        match bitrng instr 11 10 with
        | 2 => if tmp3 &&& 2 ≠ 0 then 1 else 0
        | _ => 0
      (set_undef_addr, und, 0)
    | ARM_decode_extra_t.arm_vldste_vld3_one | ARM_decode_extra_t.arm_vldste_vst3_one =>
      let tmp3 := bitrng instr 7 4
      let und :=
        match bitrng instr 11 10 with
        | 0 => if tmp3 &&& 1 ≠ 0 then 1 else 0
        | 1 => if tmp3 &&& 1 ≠ 0 then 1 else 0
        | 2 => if tmp3 &&& 3 ≠ 0 then 1 else 0
        | _ => 0
      (set_undef_addr, und, 0)
    | ARM_decode_extra_t.arm_vldste_vld4_one | ARM_decode_extra_t.arm_vldste_vst4_one =>
      let tmp3 := bitrng instr 7 4
      let und :=
        match bitrng instr 11 10 with
        | 2 => if tmp3 &&& 3 ≠ 0 then 1 else 0
        | _ => 0
      (set_undef_addr, und, 0)
    | ARM_decode_extra_t.arm_vldste_vld1_all =>
      let tmp3 := bitrng instr 7 6
      let und :=
        (if tmp3 = 3 then 1 else 0) + (if tmp3 = 0 ∧ bit instr 4 ≠ 0 then 1 else 0)
      (set_undef_addr, und, 0)
    | ARM_decode_extra_t.arm_vldste_vld2_all =>
      (set_undef_addr, (if bitrng instr 7 6 = 3 then 1 else 0), 0)
    | ARM_decode_extra_t.arm_vldste_vld3_all =>
      (set_undef_addr, (if bitrng instr 7 6 = 3 ∨ bit instr 4 ≠ 0 then 1 else 0), 0)
    | ARM_decode_extra_t.arm_vldste_vld4_all =>
      let tmp3 := bitrng instr 7 6
      let und := if tmp3 = 3 ∧ bit instr 4 = 0 then 1 else 0
      let tmp4 := (if tmp3 = 3 then 0 else 1 <<< tmp3) * 4
      if tmp1 = 15 then
        if tmp2 = 15 then (set_addr_lin, und, 1)
        else if tmp2 = 13 then (set_arm_addr (add32 (ctx.reg 15) tmp4), und, 1)
        else (set_arm_addr (add32 (ctx.reg 15) (ctx.reg tmp2)), und, 1)
      else (set_addr_lin, und, 0)
    | _ => (set_undef_addr, 0, 0)
  if res.2.1 ≠ 0 then set_undef_addr
  else if res.2.2 ≠ 0 then set_unpred_addr res.1
  else res.1

/-- Embedding of arm_core_exc (ARM_decode_table.c lines 2919-3124).
Exception-generating and exception-return instructions, resolved by current
processor mode and security state. The BKPT case returns the linear sentinel
unconditionally. The RFE ThumbEE test keeps the C operator precedence, under
which the status word is masked with 1. -/
def arm_core_exc (instr : Nat) (extra : ARM_decode_extra_t) (ctx : RegContext) :
    instr_next_addr_t :=
  match extra with
  | ARM_decode_extra_t.arm_exc_eret =>
    if check_proc_mode ctx INSTR_PMODE_HYP 0 0 0 then
      set_unpred_addr (set_arm_addr (get_elr_hyp ctx))
    else if check_proc_mode ctx INSTR_PMODE_USR INSTR_PMODE_SYS 0 0 then set_undef_addr
    else set_arm_addr (ctx.reg 14)
  | ARM_decode_extra_t.arm_exc_bkpt => set_addr_lin
  | ARM_decode_extra_t.arm_exc_hvc =>
    if get_security_state ctx then set_undef_addr
    else if check_proc_mode ctx INSTR_PMODE_USR 0 0 0 then set_undef_addr
    else if get_SCR ctx &&& (1 <<< 8) = 0 then
      if check_proc_mode ctx INSTR_PMODE_USR 0 0 0 then set_addr_lin
      else set_undef_addr
    else set_addr_lin
  | ARM_decode_extra_t.arm_exc_smc =>
    if check_proc_mode ctx INSTR_PMODE_USR 0 0 0 then set_undef_addr
    else if get_HCR ctx &&& (1 <<< 19) ≠ 0 ∧ ¬ get_security_state ctx then set_addr_lin
    else if get_SCR ctx &&& (1 <<< 7) ≠ 0 then
      if ¬ get_security_state ctx then set_undef_addr
      else set_addr_lin
    else set_addr_lin
  | ARM_decode_extra_t.arm_exc_svc =>
    if get_HCR ctx &&& (1 <<< 27) ≠ 0 then
      if ¬ get_security_state ctx ∧ check_proc_mode ctx INSTR_PMODE_USR 0 0 0 then
        set_addr_lin
      else set_addr_lin
    else set_addr_lin
  | ARM_decode_extra_t.arm_exc_udf => set_undef_addr
  | ARM_decode_extra_t.arm_exc_rfe =>
    if check_proc_mode ctx INSTR_PMODE_HYP 0 0 0 then set_undef_addr
    else
      let rn := bitrng instr 19 16
      let tmp2 := ctx.reg rn
      let pu := bits_by_mask instr 0x01800000
      let tmp3 :=
        match pu with
        | 0 => mask32 (ctx.mem (sub32 tmp2 4))
        | 1 => mask32 (ctx.mem tmp2)
        | 2 => mask32 (ctx.mem (sub32 (sub32 tmp2 4) 8))
        | 3 => mask32 (ctx.mem (add32 (add32 tmp2 4) 4))
        | _ => pu
      let retval := set_arm_addr tmp3
      if check_proc_mode ctx INSTR_PMODE_USR 0 0 0 ∧ ctx.cpsr &&& 1 ≠ 0 then
        set_unpred_addr retval
      else retval
  | ARM_decode_extra_t.arm_exc_srs =>
    if check_proc_mode ctx INSTR_PMODE_HYP 0 0 0 then set_undef_addr
    else
      let retval := set_addr_lin
      if check_proc_mode ctx INSTR_PMODE_USR INSTR_PMODE_SYS 0 0 then set_unpred_addr retval
      else if bitrng instr 4 0 = INSTR_PMODE_HYP then set_unpred_addr retval
      else if check_proc_mode ctx INSTR_PMODE_MON 0 0 0 ∧ ¬ get_security_state ctx then
        set_unpred_addr retval
      else if check_proc_mode ctx INSTR_PMODE_FIQ 0 0 0 ∧ check_coproc_access ctx 16 ∧
          ¬ get_security_state ctx then
        set_unpred_addr retval
      else retval
  | _ => set_undef_addr

/-- Embedding of the sub-case switch of arm_mux (ARM_decode_table.c lines
166-673): resolves a multiplexed encoding to an outcome, forwarding the
move and shift forms to arm_core_data_bit and the element load/store types
to arm_vfp_ldst_elem. The WFE/WFI rule compares the hint field with 2 twice,
as the C condition does. -/
def arm_mux_resolve (instr : Nat) (extra : ARM_decode_extra_t) (ctx : RegContext) :
    instr_next_addr_t :=
  match extra with
  | ARM_decode_extra_t.arm_mux_vbic_vmvn =>
    if bitrng instr 11 9 ≠ 7 then set_addr_lin else set_undef_addr
  | ARM_decode_extra_t.arm_mux_wfe_wfi =>
    if bitrng instr 7 0 = 2 ∨ bitrng instr 7 0 = 2 then set_addr_lin else set_undef_addr
  | ARM_decode_extra_t.arm_mux_vshrn_q_imm =>
    if bit instr 0 = 0 then set_addr_lin else set_undef_addr
  | ARM_decode_extra_t.arm_mux_vrshrn_q_imm =>
    if bit instr 0 = 0 then set_addr_lin else set_undef_addr
  | ARM_decode_extra_t.arm_mux_vshll_i_vmovl =>
    if bit instr 12 = 0 then
      match bitrng instr 21 19 with
      | 0 => set_undef_addr
      | _ => set_addr_lin
    else set_undef_addr
  | ARM_decode_extra_t.arm_mux_vorr_i_vmov_i =>
    if bit instr 6 = 1 ∧ bit instr 12 = 0 then
      if bit instr 7 = 0 ∧ bitrng instr 21 19 = 0 then
        if bit instr 5 = 0 ∧ bit instr 8 = 1 ∧ bitrng instr 11 10 ≠ 3 then set_addr_lin
        else if bit instr 8 = 0 ∨ bitrng instr 11 10 = 3 then set_addr_lin
        else set_undef_addr
      else
        if bit instr 6 = 1 ∧ bit instr 0 = 0 then set_addr_lin else set_undef_addr
    else set_undef_addr
  | ARM_decode_extra_t.arm_mux_lsl_i_mov | ARM_decode_extra_t.arm_mux_lsl_i_mov_pc =>
    if bitrng instr 11 7 = 0 then
      if extra = ARM_decode_extra_t.arm_mux_lsl_i_mov then
        arm_core_data_bit instr ARM_decode_extra_t.arm_cdata_mov_r ctx
      else if bit instr 20 = 1 then
        arm_core_data_bit instr ARM_decode_extra_t.arm_ret_mov_pc ctx
      else
        arm_core_data_bit instr ARM_decode_extra_t.arm_cdata_mov_r ctx
    else
      if extra = ARM_decode_extra_t.arm_mux_lsl_i_mov then
        arm_core_data_bit instr ARM_decode_extra_t.arm_cdata_lsl_imm ctx
      else if bit instr 20 = 1 then
        arm_core_data_bit instr ARM_decode_extra_t.arm_ret_lsl_imm ctx
      else
        arm_core_data_bit instr ARM_decode_extra_t.arm_cdata_lsl_imm ctx
  | ARM_decode_extra_t.arm_mux_ror_i_rrx =>
    if bitrng instr 11 7 = 0 then arm_core_data_bit instr ARM_decode_extra_t.arm_cdata_rrx_r ctx
    else arm_core_data_bit instr ARM_decode_extra_t.arm_cdata_ror_imm ctx
  | ARM_decode_extra_t.arm_mux_vmovn_q =>
    if bitrng instr 19 18 ≠ 3 ∧ bit instr 0 = 0 then set_addr_lin else set_undef_addr
  | ARM_decode_extra_t.arm_mux_msr_r_pr =>
    if bitrng ctx.cpsr 4 0 = 16 then
      if bit instr 22 = 1 then set_unpred_addr set_addr_lin
      else if bitrng instr 19 18 = 0 then set_unpred_addr set_addr_lin
      else if bitrng instr 3 0 = 15 then set_unpred_addr set_addr_lin
      else set_addr_lin
    else if bitrng ctx.cpsr 4 0 = 31 then
      let tmp1 := ctx.reg (bitrng instr 3 0) &&& 0x1f
      if tmp1 ≠ 16 ∧ tmp1 ≠ 31 then set_unpred_addr set_addr_lin
      else if bitrng instr 19 16 = 0 then set_unpred_addr set_addr_lin
      else if bitrng instr 3 0 = 15 then set_unpred_addr set_addr_lin
      else set_addr_lin
    else
      if bitrng instr 19 16 = 0 then set_unpred_addr set_addr_lin
      else if bitrng instr 3 0 = 15 then set_unpred_addr set_addr_lin
      else set_addr_lin
  | ARM_decode_extra_t.arm_mux_mrs_r_pr =>
    let tmp1 := bitrng ctx.cpsr 4 0 &&& 0x1f
    if tmp1 = 16 then
      if bitrng instr 11 8 = 15 then
        if bit instr 22 = 0 then
          set_unpred_addr
            { address := ctx.cpsr &&& 0xf80f0000, flag := InstrAddrState.ARM, unpred := false }
        else set_unpred_addr set_addr_lin
      else set_addr_lin
    else if tmp1 = 31 then
      if bitrng instr 11 8 = 15 then
        if bit instr 22 = 0 then
          set_unpred_addr
            { address := ctx.cpsr &&& 0xf8ff03df, flag := InstrAddrState.ARM, unpred := false }
        else set_unpred_addr set_addr_lin
      else set_addr_lin
    else
      if bitrng instr 11 8 = 15 then
        if bit instr 22 = 0 then
          set_unpred_addr
            { address := ctx.cpsr &&& 0xf8ff03df, flag := InstrAddrState.ARM, unpred := false }
        else
          set_unpred_addr
            { address := mask32 ctx.spsr, flag := InstrAddrState.ARM, unpred := false }
      else set_addr_lin
  | ARM_decode_extra_t.arm_mux_msr_i_pr_hints =>
    if bitrng instr 19 16 ≠ 0 then
      if bitrng ctx.cpsr 4 0 = 16 then
        if bit instr 22 = 1 then set_unpred_addr set_addr_lin else set_addr_lin
      else if bitrng ctx.cpsr 4 0 = 31 then
        let tmp1 := ctx.reg (bitrng instr 3 0) &&& 0x1f
        let retval := set_addr_lin
        let retval := if tmp1 ≠ 16 ∧ tmp1 ≠ 31 then set_unpred_addr retval else retval
        let retval := if bit instr 22 = 1 then set_unpred_addr retval else retval
        retval
      else set_addr_lin
    else
      match bitrng instr 7 0 with
      | 0 | 1 | 2 | 3 | 4 => set_addr_lin
      | _ =>
        if bitrng instr 7 0 &&& 0xf0 ≠ 0xf0 then set_undef_addr else set_addr_lin
  | ARM_decode_extra_t.arm_mux_vorr_vmov_nm =>
    if bit instr 16 = 0 ∧ bit instr 12 = 0 ∧ bit instr 0 = 0 then set_addr_lin
    else set_undef_addr
  | ARM_decode_extra_t.arm_mux_vst_type =>
    match bitrng instr 11 8 with
    | 2 | 6 | 7 | 10 => arm_vfp_ldst_elem instr ARM_decode_extra_t.arm_vldste_vst1_mult ctx
    | 3 | 8 | 9 => arm_vfp_ldst_elem instr ARM_decode_extra_t.arm_vldste_vst2_mult ctx
    | 4 | 5 => arm_vfp_ldst_elem instr ARM_decode_extra_t.arm_vldste_vst3_mult ctx
    | 0 | 1 => arm_vfp_ldst_elem instr ARM_decode_extra_t.arm_vldste_vst4_mult ctx
    | _ => set_undef_addr
  | ARM_decode_extra_t.arm_mux_vld_type =>
    match bitrng instr 11 8 with
    | 2 | 6 | 7 | 10 => arm_vfp_ldst_elem instr ARM_decode_extra_t.arm_vldste_vld1_mult ctx
    | 3 | 8 | 9 => arm_vfp_ldst_elem instr ARM_decode_extra_t.arm_vldste_vld2_mult ctx
    | 4 | 5 => arm_vfp_ldst_elem instr ARM_decode_extra_t.arm_vldste_vld3_mult ctx
    | 0 | 1 => arm_vfp_ldst_elem instr ARM_decode_extra_t.arm_vldste_vld4_mult ctx
    | _ => set_undef_addr
  | _ => set_undef_addr

/-- Embedding of arm_mux (ARM_decode_table.c lines 160-685): resolve the
multiplexed sub-case first, then apply the central condition check, which
forces the linear sentinel when the flag word with the UNPREDICTABLE bit
masked off equals the ARM state and the condition does not hold. -/
def arm_mux (instr : Nat) (extra : ARM_decode_extra_t) (ctx : RegContext) :
    instr_next_addr_t :=
  let retval := arm_mux_resolve instr extra ctx
  if retval.flag = InstrAddrState.ARM then
    if will_branch instr ctx then retval else set_addr_lin
  else retval

/-- A decoding table entry: fixed bits, mask, extra tag and the handler. -/
structure ARM_dec_tbl_entry_t where
  data : Nat
  mask : Nat
  extra : ARM_decode_extra_t
  decoder : Nat → ARM_decode_extra_t → RegContext → instr_next_addr_t

/-- Embedding of ARM_decoder_dispatch (ARM_decode_table.c lines 127-153):
scan the table in order; on the first entry whose mask and fixed bits match
the instruction word call its handler and return, otherwise keep the initial
UNDEFINED value. The table contents are generated data outside src, so the
dispatcher is embedded generically over the table. -/
def ARM_decoder_dispatch (tbl : List ARM_dec_tbl_entry_t) (instr : Nat) (ctx : RegContext) :
    instr_next_addr_t :=
  match tbl with
  | [] => set_undef_addr
  | e :: rest =>
    if instr &&& e.mask = e.data then e.decoder instr e.extra ctx
    else ARM_decoder_dispatch rest instr ctx

/-- A decoding table entry in the state-passing view, whose handler also
returns the (possibly updated) register context. -/
structure ARM_dec_tbl_entry_st_t where
  data : Nat
  mask : Nat
  extra : ARM_decode_extra_t
  decoder : Nat → ARM_decode_extra_t → RegContext → instr_next_addr_t × RegContext

/-- State-passing form of the dispatcher: the register context is threaded
through the handler call so that mutation of the snapshot, were any handler
to perform it, would be visible in the second component. -/
def ARM_decoder_dispatch_st (tbl : List ARM_dec_tbl_entry_st_t) (instr : Nat)
    (ctx : RegContext) : instr_next_addr_t × RegContext :=
  match tbl with
  | [] => (set_undef_addr, ctx)
  | e :: rest =>
    if instr &&& e.mask = e.data then e.decoder instr e.extra ctx
    else ARM_decoder_dispatch_st rest instr ctx

/-- State-passing form of arm_mux. The C body reads the register context but
contains no store to it, so the translated handler returns the context
unchanged. -/
def arm_mux_st (instr : Nat) (extra : ARM_decode_extra_t) (ctx : RegContext) :
    instr_next_addr_t × RegContext :=
  (arm_mux instr extra ctx, ctx)

/-- State-passing form of arm_branch; the C body contains no store to the
register context. -/
def arm_branch_st (instr : Nat) (extra : ARM_decode_extra_t) (ctx : RegContext) :
    instr_next_addr_t × RegContext :=
  (arm_branch instr extra ctx, ctx)

/-- State-passing form of arm_core_data_div; the C body contains no store to
the register context. -/
def arm_core_data_div_st (instr : Nat) (extra : ARM_decode_extra_t) (ctx : RegContext) :
    instr_next_addr_t × RegContext :=
  (arm_core_data_div instr extra ctx, ctx)

/-- State-passing form of arm_core_data_mac; the C body contains no store to
the register context. -/
def arm_core_data_mac_st (instr : Nat) (extra : ARM_decode_extra_t) (ctx : RegContext) :
    instr_next_addr_t × RegContext :=
  (arm_core_data_mac instr extra ctx, ctx)

/-- State-passing form of arm_core_data_bit; the C body contains no store to
the register context. -/
def arm_core_data_bit_st (instr : Nat) (extra : ARM_decode_extra_t) (ctx : RegContext) :
    instr_next_addr_t × RegContext :=
  (arm_core_data_bit instr extra ctx, ctx)

/-- State-passing form of arm_core_data_std_r; the C body contains no store
to the register context. -/
def arm_core_data_std_r_st (instr : Nat) (extra : ARM_decode_extra_t) (ctx : RegContext) :
    instr_next_addr_t × RegContext :=
  (arm_core_data_std_r instr extra ctx, ctx)

/-- State-passing form of arm_core_exc; the C body reads target memory and
the register context but contains no store to the context. -/
def arm_core_exc_st (instr : Nat) (extra : ARM_decode_extra_t) (ctx : RegContext) :
    instr_next_addr_t × RegContext :=
  (arm_core_exc instr extra ctx, ctx)

/-- State-passing form of arm_vfp_ldst_elem; the C body contains no store to
the register context. -/
def arm_vfp_ldst_elem_st (instr : Nat) (extra : ARM_decode_extra_t) (ctx : RegContext) :
    instr_next_addr_t × RegContext :=
  (arm_vfp_ldst_elem instr extra ctx, ctx)

/-- Specification-side description of the register branch forms, written from
the spec wording: the target is the indexed register value; Thumb state with
bit 0 cleared when bit 0 is set; ARM state with bits 1 and 0 cleared when bit
1 is clear; otherwise the linear sentinel with the UNPREDICTABLE overlay; and
the overlay is always applied when the index register is the program
counter. -/
def arm_branch_reg_spec (instr : Nat) (ctx : RegContext) : instr_next_addr_t :=
  let v := ctx.reg (bitrng instr 3 0)
  let base :=
    if bit v 0 = 1 then set_thumb_addr (v &&& 0xfffffffe)
    else if bit v 1 = 0 then set_arm_addr (v &&& 0xfffffffc)
    else set_unpred_addr set_addr_lin
  if bitrng instr 3 0 = 15 then set_unpred_addr base else base

/-- A register snapshot with all registers zero, user mode, all flags clear. -/
def ctx0 : RegContext :=
  { storage := fun _ => 0, cpsr := 0x10, spsr := 0, secure_state := false,
    scr := 0, hcr := 0, elr_hyp := 0, mem := fun _ => 0, mem_byte := fun _ => 0,
    coproc_acc := fun _ => false, vfp := fun _ => 0 }

/-- A register snapshot for the ORR scenario: R0 holds 0xF0 and R1 holds 0x0F,
so the architectural inclusive or of the operands would be 0xFF. -/
def ctx4 : RegContext :=
  { storage := fun i => if i = 0 then 0xF0 else if i = 1 then 0x0F else 0,
    cpsr := 0x13, spsr := 0, secure_state := false, scr := 0, hcr := 0,
    elr_hyp := 0, mem := fun _ => 0, mem_byte := fun _ => 0,
    coproc_acc := fun _ => false, vfp := fun _ => 0 }

/-- A register snapshot for the MOV PC, LR scenario: LR holds 0x1001,
supervisor mode. -/
def ctx5 : RegContext :=
  { storage := fun i => if i = 14 then 0x1001 else 0, cpsr := 0x13, spsr := 0,
    secure_state := false, scr := 0, hcr := 0, elr_hyp := 0, mem := fun _ => 0, mem_byte := fun _ => 0,
    coproc_acc := fun _ => false, vfp := fun _ => 0 }

/-- A register snapshot for the BX LR scenario: LR holds 0x1001. -/
def ctx6 : RegContext :=
  { storage := fun i => if i = 14 then 0x1001 else 0, cpsr := 0x13, spsr := 0,
    secure_state := false, scr := 0, hcr := 0, elr_hyp := 0, mem := fun _ => 0, mem_byte := fun _ => 0,
    coproc_acc := fun _ => false, vfp := fun _ => 0 }

/-- A register snapshot for the SDIV scenario: R0 holds 7 and R1, the divisor
register, holds 0. -/
def ctx7 : RegContext :=
  { storage := fun i => if i = 0 then 7 else 0, cpsr := 0x13, spsr := 0,
    secure_state := false, scr := 0, hcr := 0, elr_hyp := 0, mem := fun _ => 0, mem_byte := fun _ => 0,
    coproc_acc := fun _ => false, vfp := fun _ => 0 }

/-- A representative decode table in the state-passing view, built from the
embedded handlers. The real table contents are generated data outside src;
the mask and fixed-bits values here follow the A32 encodings of the listed
instruction classes. -/
def ARM_decode_table_sample : List ARM_dec_tbl_entry_st_t :=
  [ { data := 0x0320F000, mask := 0x0FFFFF00,
      extra := ARM_decode_extra_t.arm_mux_wfe_wfi, decoder := arm_mux_st },
    { data := 0x012FFF10, mask := 0x0FFFFFF0,
      extra := ARM_decode_extra_t.arm_bra_bx_r, decoder := arm_branch_st },
    { data := 0x0710F010, mask := 0x0FF0F0F0,
      extra := ARM_decode_extra_t.arm_div_sdiv, decoder := arm_core_data_div_st },
    { data := 0x00000090, mask := 0x0FF0F0F0,
      extra := ARM_decode_extra_t.arm_cmac_mul, decoder := arm_core_data_mac_st },
    { data := 0x01800000, mask := 0x0FF00010,
      extra := ARM_decode_extra_t.arm_cdata_orr_r, decoder := arm_core_data_std_r_st },
    { data := 0x01200070, mask := 0x0FF000F0,
      extra := ARM_decode_extra_t.arm_exc_bkpt, decoder := arm_core_exc_st } ]

/-- A bit extraction yields 0 or 1. -/
theorem bit_eq_zero_or_one (w i : Nat) : bit w i = 0 ∨ bit w i = 1 :=
  Nat.mod_two_eq_zero_or_one _

/-- Claim C1, counterexample: an instruction with a failing condition code
(condition EQ with the Z flag clear) that resolves through the WFE/WFI
multiplexer sub-case to UNDEFINED is returned as UNDEFINED, not as the
linear-fallthrough sentinel, so the claim as stated fails. -/
theorem arm_mux_cond_fail_counterexample :
    will_branch 0x0320F003 ctx0 = false ∧
    arm_mux 0x0320F003 ARM_decode_extra_t.arm_mux_wfe_wfi ctx0 ≠ set_addr_lin := by
  decide

/-- Claim C1, amended: for every instruction word that reaches the
multiplexer with a condition code not satisfied by the current status word,
the returned outcome is the linear-fallthrough sentinel whenever the
resolved sub-case outcome carries the ARM state (ignoring the UNPREDICTABLE
overlay); sub-cases resolved to UNDEFINED or to a Thumb-state target are
returned unchanged. The suppression is applied once, centrally, after the
sub-case switch. -/
theorem arm_mux_central_cond_check (instr : Nat) (extra : ARM_decode_extra_t)
    (ctx : RegContext) (h : will_branch instr ctx = false) :
    arm_mux instr extra ctx =
      if (arm_mux_resolve instr extra ctx).flag = InstrAddrState.ARM then set_addr_lin
      else arm_mux_resolve instr extra ctx := by
  unfold arm_mux
  by_cases hf : (arm_mux_resolve instr extra ctx).flag = InstrAddrState.ARM
  · simp [hf, h]
  · simp [hf]

/-- Claim C1, witness: the amended statement instantiated at the concrete
failing-condition WFI word. -/
theorem arm_mux_central_cond_check_witness :
    will_branch 0x0320F003 ctx0 = false ∧
    arm_mux 0x0320F003 ARM_decode_extra_t.arm_mux_wfe_wfi ctx0 =
      (if (arm_mux_resolve 0x0320F003 ARM_decode_extra_t.arm_mux_wfe_wfi ctx0).flag =
          InstrAddrState.ARM then set_addr_lin
       else arm_mux_resolve 0x0320F003 ARM_decode_extra_t.arm_mux_wfe_wfi ctx0) :=
  ⟨by decide, arm_mux_central_cond_check _ _ _ (by decide)⟩

/-- Claim C3: for every instruction word the dispatcher returns the result
of the handler of the first decode-table entry, in table order, whose mask
and fixed bits match the word, and returns the UNDEFINED outcome when no
entry matches. -/
theorem ARM_decoder_dispatch_first_match (tbl : List ARM_dec_tbl_entry_t) (instr : Nat)
    (ctx : RegContext) :
    ARM_decoder_dispatch tbl instr ctx =
      match tbl.find? (fun e => instr &&& e.mask == e.data) with
      | some e => e.decoder instr e.extra ctx
      | none => set_undef_addr := by
  induction tbl with
  | nil => rfl
  | cons e rest ih =>
    by_cases h : instr &&& e.mask = e.data
    · simp [ARM_decoder_dispatch, List.find?, h]
    · have hb : (instr &&& e.mask == e.data) = false := beq_eq_false_iff_ne.mpr h
      simp [ARM_decoder_dispatch, List.find?, h, hb, ih]

/-- Claim C4, failing input: the register ORR with destination PC, first
operand R0 = 0xF0 and second operand R1 = 0x0F, yields address 0 because the
handler computes a bitwise and of the operands, while the architectural
inclusive or of the operands is 0xFF. -/
theorem arm_core_data_std_r_orr_and_slip :
    arm_core_data_std_r 0xE180F001 ARM_decode_extra_t.arm_ret_orr_r ctx4 = set_arm_addr 0 ∧
    ((0xF0 : Nat) ||| 0x0F) = 0xFF := by
  decide

/-- Claim C5, failing input: MOV PC, LR with the S bit clear and LR = 0x1001
returns the linear sentinel, not a Thumb jump to 0x1000, because the
multiplexer hands the S-clear move to the arm_cdata_mov_r sub-type, which
the classification switch of arm_core_data_bit sends to its default,
linear, branch. -/
theorem arm_mux_mov_pc_lr_linear :
    arm_mux 0xE1A0F00E ARM_decode_extra_t.arm_mux_lsl_i_mov_pc ctx5 = set_addr_lin ∧
    set_addr_lin ≠ set_thumb_addr 0x1001 := by
  decide

/-- Claim C6: for the register branch forms BX, BLX and BXJ with a holding
condition, the outcome follows the specification description: target from
the indexed register, Thumb state with bit 0 cleared when bit 0 is set, ARM
state with the two low bits cleared when bit 1 is clear, otherwise the
linear sentinel with the UNPREDICTABLE overlay, and the overlay whenever
the index register is the program counter. -/
theorem arm_branch_reg_correct (instr : Nat) (ctx : RegContext) (extra : ARM_decode_extra_t)
    (he : extra = ARM_decode_extra_t.arm_bra_bx_r ∨ extra = ARM_decode_extra_t.arm_bra_blx_r ∨
      extra = ARM_decode_extra_t.arm_bra_bxj_r)
    (hc : will_branch instr ctx = true) :
    arm_branch instr extra ctx = arm_branch_reg_spec instr ctx := by
  have hm1 : shl32 (not32 0) 1 = 0xfffffffe := by decide
  have hm2 : shl32 (not32 0) 2 = 0xfffffffc := by decide
  rcases he with rfl | rfl | rfl <;>
  · simp only [arm_branch, hc, if_true, arm_branch_reg_spec, hm1, hm2]
    rcases bit_eq_zero_or_one (ctx.reg (bitrng instr 3 0)) 0 with h0 | h0 <;>
      simp [h0]

/-- Claim C6, witness: BX LR with LR = 0x1001 under an always condition. -/
theorem arm_branch_reg_correct_witness :
    will_branch 0xE12FFF1E ctx6 = true ∧
    arm_branch 0xE12FFF1E ARM_decode_extra_t.arm_bra_bx_r ctx6 =
      arm_branch_reg_spec 0xE12FFF1E ctx6 :=
  ⟨by decide, arm_branch_reg_correct 0xE12FFF1E ctx6 ARM_decode_extra_t.arm_bra_bx_r
    (Or.inl rfl) (by decide)⟩

/-- Claim C7, failing input: SDIV with the program counter as destination
and a zero divisor returns address 0 in ARM state with the unpredictable
flag clear; the claim expects the flag set. -/
theorem arm_core_data_div_sdiv_pc_zero_divisor :
    arm_core_data_div 0xE71FF110 ARM_decode_extra_t.arm_div_sdiv ctx7 = set_arm_addr 0 ∧
    (arm_core_data_div 0xE71FF110 ARM_decode_extra_t.arm_div_sdiv ctx7).unpred = false := by
  decide

/-- Claim C8: in the state-passing view of the dispatcher, whenever every
table handler leaves the register snapshot unchanged, a dispatch call leaves
the snapshot unchanged; the embedded handlers satisfy the premise because
the C bodies contain no store to the register context. -/
theorem ARM_decoder_dispatch_st_preserves (tbl : List ARM_dec_tbl_entry_st_t) (instr : Nat)
    (ctx : RegContext)
    (h : ∀ e ∈ tbl, ∀ w c, (e.decoder w e.extra c).2 = c) :
    (ARM_decoder_dispatch_st tbl instr ctx).2 = ctx := by
  induction tbl with
  | nil => rfl
  | cons e rest ih =>
    simp only [ARM_decoder_dispatch_st]
    by_cases hm : instr &&& e.mask = e.data
    · simp only [if_pos hm]
      exact h e (List.mem_cons_self e rest) instr ctx
    · simp only [if_neg hm]
      exact ih (fun e' he' w c => h e' (List.mem_cons_of_mem e he') w c)

/-- Claim C8, witness: the representative table built from the embedded
handlers preserves the snapshot on a dispatch of the BX LR word. -/
theorem ARM_decoder_dispatch_st_preserves_witness :
    (ARM_decoder_dispatch_st ARM_decode_table_sample 0xE12FFF1E ctx0).2 = ctx0 := by
  apply ARM_decoder_dispatch_st_preserves
  intro e he w c
  simp only [ARM_decode_table_sample, List.mem_cons, List.mem_singleton,
    List.not_mem_nil, or_false] at he
  rcases he with rfl | rfl | rfl | rfl | rfl | rfl <;> rfl

/-- Claim C9: the WFE/WFI multiplexer sub-case resolves to the linear
outcome exactly when bits 7 to 0 of the word equal 2, and to UNDEFINED for
every other hint value, including 3, before the central condition check. -/
theorem arm_mux_wfe_wfi_rule (instr : Nat) (ctx : RegContext) :
    arm_mux_resolve instr ARM_decode_extra_t.arm_mux_wfe_wfi ctx =
      if bitrng instr 7 0 = 2 then set_addr_lin else set_undef_addr := by
  by_cases h : bitrng instr 7 0 = 2 <;> simp [arm_mux_resolve, h]

/-- Claim C10: for every BKPT instruction and every register snapshot, in
any processor mode and security state, the exception handler returns the
linear-fallthrough sentinel with the unpredictable flag clear. -/
theorem arm_core_exc_bkpt_linear (instr : Nat) (ctx : RegContext) :
    arm_core_exc instr ARM_decode_extra_t.arm_exc_bkpt ctx = set_addr_lin := rfl
